import Mathlib

/-!
Verification development for the patient-tracking repository.

The Python sources are shallowly embedded:
* NMEA decoding (`patient_tracker_new.PatientTracker.parse_gps_data`,
  `patient_tracker.PatientTracker.parse_gps_data`, `tracker.parse_nmea`) is
  modelled as computable functions over lists of characters; numeric fields use
  `ℚ` (Python floats on the decimal strings involved are exact).
* The haversine distance and geofence checks (`calculate_distance`,
  `check_geofence`) are modelled over `ℝ`.
* The tracking loop (`tracking_loop`) is a fold of a per-cycle transition over
  the list of per-poll decode results.
Caught Python exceptions are modelled by the value the handler returns;
uncaught exception propagation is modelled by `Except`/`Option` short-circuiting.
-/

/- Batteries marks the `Rat` field operations `@[irreducible]`, which blocks
kernel evaluation of concrete rational results.  The concrete decoders below
are executable and their results are checked with `decide`, so restore
reducibility for them. -/
attribute [local semireducible] Rat.add Rat.inv Rat.mul Rat.sub Rat.ofScientific

/-! ## Python / pynmea2 string primitives -/

/-- Characters treated as whitespace by Python's `str.strip()`. -/
def pySpace (c : Char) : Bool :=
  c == ' ' || c == '\t' || c == '\n' || c == '\r' || c == '\x0b' || c == '\x0c'

/-- Right-hand part of Python `str.strip()`: drop trailing whitespace. -/
def pyRstrip (l : List Char) : List Char :=
  (l.reverse.dropWhile pySpace).reverse

/-- Python `str.strip()` on a list of characters. -/
def pyStrip (l : List Char) : List Char :=
  pyRstrip (l.dropWhile pySpace)

/-- Python `str.split(sep)` for a one-character separator. -/
def splitOnChar (sep : Char) (l : List Char) : List (List Char) :=
  l.foldr
    (fun c acc =>
      match acc with
      | cur :: done => if c = sep then [] :: cur :: done else (c :: cur) :: done
      | [] => [[c]])
    [[]]

/-- Numeric value of a digit string (most significant digit first). -/
def natOfDigits (l : List Char) : ℕ :=
  l.foldl (fun a c => 10 * a + (c.toNat - 48)) 0

def allDigits (l : List Char) : Bool :=
  l.all Char.isDigit

/-- Python `float(s)` restricted to the decimal forms the GPS fields use:
optional sign, digits with at most one decimal point, at least one digit.
`none` models a raised `ValueError`. (Exponent/`inf`/`nan` forms are not
produced by NMEA fields and are not modelled.) -/
def pyFloat? (s : List Char) : Option ℚ :=
  let t := pyStrip s
  let sgn : ℚ := match t with | '-' :: _ => -1 | _ => 1
  let u := match t with | '-' :: r => r | '+' :: r => r | _ => t
  match splitOnChar '.' u with
  | [ip] =>
      if ip ≠ [] ∧ allDigits ip then some (sgn * natOfDigits ip) else none
  | [ip, fp] =>
      if (ip ≠ [] ∨ fp ≠ []) ∧ allDigits ip ∧ allDigits fp then
        some (sgn * ((natOfDigits ip : ℚ) + (natOfDigits fp : ℚ) / 10 ^ fp.length))
      else none
  | _ => none

/-- Python `int(s)` on the decimal forms used by NMEA fields.
`none` models a raised `ValueError`. -/
def pyInt? (s : List Char) : Option ℤ :=
  let t := pyStrip s
  match t with
  | '-' :: r => if r ≠ [] ∧ allDigits r then some (-(natOfDigits r : ℤ)) else none
  | '+' :: r => if r ≠ [] ∧ allDigits r then some ((natOfDigits r : ℤ)) else none
  | _ => if t ≠ [] ∧ allDigits t then some ((natOfDigits t : ℤ)) else none

/-! ## pynmea2 model

`pynmea2.parse(line)` (as called with its default `check=False`):
the sentence regex requires `$`, a two-character talker and three-character
sentence type of word characters, a comma, data without `*`, and an optional
`*HH` checksum of two uppercase hex digits; a present-but-wrong checksum
raises `ChecksumError` (a `ParseError`).  Typed fields are converted lazily on
attribute access: an empty field yields `None`, a malformed one raises a
non-`ParseError` exception. -/

def isWordChar (c : Char) : Bool := c.isAlphanum || c == '_'

def isUpHex (c : Char) : Bool := c.isDigit || ('A' ≤ c && c ≤ 'F')

def hexDigitVal (c : Char) : ℕ :=
  if c.isDigit then c.toNat - 48 else c.toNat - 55

/-- XOR checksum over the sentence body (between `$` and `*`). -/
def nmea_checksum (l : List Char) : ℕ :=
  l.foldl (fun a c => Nat.xor a c.toNat) 0

/-- Split the part after the sentence type at the first `*`, if any. -/
def splitAtStar (l : List Char) : List Char × Option (List Char) :=
  let ds := l.takeWhile (fun c => c != '*')
  match l.dropWhile (fun c => c != '*') with
  | [] => (ds, none)
  | _ :: cs => (ds, some cs)

/-- Result of `pynmea2.parse`: either a raised `ParseError` (including
`ChecksumError`), or the parsed sentence's comma-separated data fields. -/
inductive Pyn where
  | err : Pyn
  | msg (data : List (List Char)) : Pyn
  deriving DecidableEq

/-- Model of `pynmea2.parse(line)` with `check=False`, for the talker
sentences this repository feeds it. -/
def pynmea2_parse (line : List Char) : Pyn :=
  let t := pyStrip line
  let b := match t with | '$' :: r => r | _ => t
  match b with
  | t1 :: t2 :: s1 :: s2 :: s3 :: ',' :: rest =>
    if isWordChar t1 && isWordChar t2 && isWordChar s1 && isWordChar s2 && isWordChar s3 then
      match splitAtStar rest with
      | (ds, none) => .msg (splitOnChar ',' ds)
      | (ds, some cs) =>
        match cs with
        | [h1, h2] =>
          if isUpHex h1 && isUpHex h2 &&
              (16 * hexDigitVal h1 + hexDigitVal h2
                = nmea_checksum (t1 :: t2 :: s1 :: s2 :: s3 :: ',' :: ds)) then
            .msg (splitOnChar ',' ds)
          else .err
        | _ => .err
    else .err
  | _ => .err

/-- pynmea2 field access: a missing trailing field reads as the empty string. -/
def fieldAt (data : List (List Char)) (i : ℕ) : List Char :=
  (data.get? i).getD []

/-- A float-typed pynmea2 field: empty ⇒ `None`; malformed ⇒ raises. -/
def floatFieldAt (data : List (List Char)) (i : ℕ) : Except Unit (Option ℚ) :=
  let v := fieldAt data i
  if v = [] then .ok none
  else match pyFloat? v with
    | some q => .ok (some q)
    | none => .error ()

/-- An int-typed pynmea2 field: empty ⇒ `None`; malformed ⇒ raises. -/
def intFieldAt (data : List (List Char)) (i : ℕ) : Except Unit (Option ℤ) :=
  let v := fieldAt data i
  if v = [] then .ok none
  else match pyInt? v with
    | some z => .ok (some z)
    | none => .error ()

/-- pynmea2 `dm_to_sd`: degrees-and-decimal-minutes to signed decimal degrees.
Empty or `"0"` yields `0`; otherwise the field must match
`^(\d+)(\d\d\.\d+)$`, else attribute access raises (`none`). -/
def dm_to_sd (dm : List Char) : Option ℚ :=
  if dm = [] ∨ dm = ['0'] then some 0
  else
    match splitOnChar '.' dm with
    | [ip, fp] =>
        if 3 ≤ ip.length ∧ allDigits ip ∧ 1 ≤ fp.length ∧ allDigits fp then
          some ((natOfDigits (ip.take (ip.length - 2)) : ℚ)
            + ((natOfDigits (ip.drop (ip.length - 2)) : ℚ)
                + (natOfDigits fp : ℚ) / 10 ^ fp.length) / 60)
        else none
    | _ => none

/-- pynmea2 `latitude` property: `dm_to_sd` plus the `N`/`S` sign
(any other direction value yields `0.0`). -/
def latitudeOf (lat latdir : List Char) : Except Unit ℚ :=
  match dm_to_sd lat with
  | none => .error ()
  | some sd => .ok (if latdir = ['N'] then sd else if latdir = ['S'] then -sd else 0)

/-- pynmea2 `longitude` property: `dm_to_sd` plus the `E`/`W` sign. -/
def longitudeOf (lon londir : List Char) : Except Unit ℚ :=
  match dm_to_sd lon with
  | none => .error ()
  | some sd => .ok (if londir = ['E'] then sd else if londir = ['W'] then -sd else 0)

/-! ## Decoded fixes -/

/-- The location dictionary built by `parse_gps_data` (union of the GGA and
RMC dictionary keys; the wall-clock `timestamp` and the always-`None` `hdop`
entry are not modelled). -/
structure GpsFix where
  latitude : ℚ
  longitude : ℚ
  altitude : Option ℚ := none
  speed : Option ℚ := none
  satellites : Option String := none
  fix_quality : Option ℤ := none
  fix_valid : Option Bool := none
  deriving DecidableEq

/-- The GGA dictionary (`latitude`, `longitude`, `altitude`, `satellites`,
`fix_quality`), as built by both pynmea2-based decoders.  An `.error` is a
non-`ParseError` exception raised during field access. -/
def gga_fix (data : List (List Char)) : Except Unit GpsFix := do
  let lat ← latitudeOf (fieldAt data 1) (fieldAt data 2)
  let lon ← longitudeOf (fieldAt data 3) (fieldAt data 4)
  let alt ← floatFieldAt data 8
  let qual ← intFieldAt data 5
  .ok { latitude := lat, longitude := lon, altitude := alt,
        satellites := some (String.mk (fieldAt data 6)), fix_quality := qual }

/-- Shared part of the RMC dictionary: coordinates, raw speed-over-ground
(knots, `None` when the field is empty) and the `is_valid` flag. -/
def rmc_common (data : List (List Char)) : Except Unit (ℚ × ℚ × Option ℚ × Bool) := do
  let lat ← latitudeOf (fieldAt data 2) (fieldAt data 3)
  let lon ← longitudeOf (fieldAt data 4) (fieldAt data 5)
  let spd ← floatFieldAt data 6
  .ok (lat, lon, spd, decide (fieldAt data 1 = ['A']))

/-- RMC dictionary of `patient_tracker_new.parse_gps_data`: the speed is
`msg.spd_over_grnd * 1.852 if msg.spd_over_grnd else 0` (knots → km/h;
`0` when the field is empty or zero). -/
def rmc_fix_new (data : List (List Char)) : Except Unit GpsFix := do
  let (lat, lon, spd, valid) ← rmc_common data
  let speed : ℚ := match spd with
    | some s => if s ≠ 0 then s * 1.852 else 0
    | none => 0
  .ok { latitude := lat, longitude := lon, speed := some speed, fix_valid := some valid }

/-- RMC dictionary of `patient_tracker.parse_gps_data`: the raw
`msg.spd_over_grnd` value (knots, possibly `None`) is stored unconverted. -/
def rmc_fix_old (data : List (List Char)) : Except Unit GpsFix := do
  let (lat, lon, spd, valid) ← rmc_common data
  .ok { latitude := lat, longitude := lon, speed := spd, fix_valid := some valid }

/-! ## The three decoders

Per-line results: `none` = keep scanning (skipped line / caught `ParseError`),
`some none` = an uncaught exception reached the outer handler, which makes the
whole decode return `None`, `some (some f)` = return this fix. -/

/-- One loop iteration of `patient_tracker_new.parse_gps_data`: strip the
line; skip it unless it starts with `$`; `pynmea2.ParseError` is caught by the
inner `except` and scanning continues; any other exception aborts the batch. -/
def gps_line_new (line : List Char) : Option (Option GpsFix) :=
  match pyStrip line with
  | '$' :: 'G' :: 'P' :: 'G' :: 'G' :: 'A' :: _ =>
    match pynmea2_parse (pyStrip line) with
    | .err => none
    | .msg data =>
      match gga_fix data with
      | .error _ => some none
      | .ok f => some (some f)
  | '$' :: 'G' :: 'P' :: 'R' :: 'M' :: 'C' :: _ =>
    match pynmea2_parse (pyStrip line) with
    | .err => none
    | .msg data =>
      match rmc_fix_new data with
      | .error _ => some none
      | .ok f => some (some f)
  | _ => none

def gps_lines_new : List (List Char) → Option GpsFix
  | [] => none
  | l :: r =>
    match gps_line_new l with
    | none => gps_lines_new r
    | some res => res

/-- Embedding of `patient_tracker_new.PatientTracker.parse_gps_data`. -/
def parse_gps_data_new (raw : String) : Option GpsFix :=
  gps_lines_new (splitOnChar '\n' raw.data)

/-- One loop iteration of `patient_tracker.parse_gps_data`: the line is not
stripped and there is no inner `except`, so any exception (including
`ParseError` on a corrupt sentence) reaches the outer handler and the whole
decode returns `None`. -/
def gps_line_old (line : List Char) : Option (Option GpsFix) :=
  match line with
  | '$' :: 'G' :: 'P' :: 'G' :: 'G' :: 'A' :: _ =>
    match pynmea2_parse line with
    | .err => some none
    | .msg data =>
      match gga_fix data with
      | .error _ => some none
      | .ok f => some (some f)
  | '$' :: 'G' :: 'P' :: 'R' :: 'M' :: 'C' :: _ =>
    match pynmea2_parse line with
    | .err => some none
    | .msg data =>
      match rmc_fix_old data with
      | .error _ => some none
      | .ok f => some (some f)
  | _ => none

def gps_lines_old : List (List Char) → Option GpsFix
  | [] => none
  | l :: r =>
    match gps_line_old l with
    | none => gps_lines_old r
    | some res => res

/-- Embedding of `patient_tracker.PatientTracker.parse_gps_data`. -/
def parse_gps_data_old (raw : String) : Option GpsFix :=
  gps_lines_old (splitOnChar '\n' raw.data)

/-- The fix dictionary of `tracker.parse_nmea` (`lat`, `lon`). -/
structure TFix where
  lat : ℚ
  lon : ℚ
  deriving DecidableEq

/-- One loop iteration of `tracker.parse_nmea`: manual `$GPGGA` field
splitting; a line whose guard fails is skipped, a `float()` failure is caught
by the surrounding bare `except` and the whole decode returns `None`. -/
def nmea_line (line : List Char) : Option (Option TFix) :=
  match line with
  | '$' :: 'G' :: 'P' :: 'G' :: 'G' :: 'A' :: _ =>
    let parts := splitOnChar ',' line
    if 5 < parts.length ∧ fieldAt parts 2 ≠ [] ∧ fieldAt parts 4 ≠ [] then
      match pyFloat? ((fieldAt parts 2).take 2), pyFloat? ((fieldAt parts 2).drop 2),
            pyFloat? ((fieldAt parts 4).take 3), pyFloat? ((fieldAt parts 4).drop 3) with
      | some d1, some m1, some d2, some m2 =>
        let la := d1 + m1 / 60
        let la := if fieldAt parts 3 = ['S'] then -la else la
        let lo := d2 + m2 / 60
        let lo := if fieldAt parts 5 = ['W'] then -lo else lo
        some (some ⟨la, lo⟩)
      | _, _, _, _ => some none
    else none
  | _ => none

def nmea_lines : List (List Char) → Option TFix
  | [] => none
  | l :: r =>
    match nmea_line l with
    | none => nmea_lines r
    | some res => res

/-- Embedding of `tracker.parse_nmea`. -/
def parse_nmea (raw : String) : Option TFix :=
  nmea_lines (splitOnChar '\n' raw.data)

/-! ## Geofence, alerts, and the tracking loop -/

/-- The geofence configuration (`geofence_enabled`, `geofence_lat`,
`geofence_lon`, `geofence_radius`). -/
structure GeofenceConfig where
  enabled : Bool
  latitude : ℝ
  longitude : ℝ
  radius : ℝ

/-- The location dictionary as consumed by `check_geofence`: a Python dict
whose coordinate entries may be missing (a missing key raises `KeyError` at
lookup).  Keys other than the coordinates are not read by the geofence or
alert code and are not modelled. -/
structure Loc where
  latitude? : Option ℝ
  longitude? : Option ℝ

/-- A row of the `alerts` table (`id`, `alert_type`, `latitude`, `longitude`,
`resolved`).  The free-text `message`, timestamps and the SMS bookkeeping
columns are not modelled.  `id` is the autoincrement primary key. -/
structure Alert where
  alert_type : String
  latitude : ℝ
  longitude : ℝ
  resolved : Bool
  id : ℕ

/-- Embedding of `trigger_alert`: INSERT a new alert row (autoincrement id, `resolved`
defaults to 0).  The SMS notification attempts touch only the unmodelled
`sms_sent` column and the external GSM transport. -/
def trigger_alert (alerts : List Alert) (ty : String) (la lo : ℝ) : List Alert :=
  alerts ++ [{ alert_type := ty, latitude := la, longitude := lo,
               resolved := false, id := alerts.length + 1 }]

/-- Embedding of `patient_tracker_new.PatientTracker.calculate_distance`: the haversine
formula with Earth radius 6 371 000 m.  (The source wraps the body in
`try/except` returning `float('inf')`; Python's `math` functions only raise
there for latitudes outside [-90, 90], which no caller in the claims below
supplies, and `Real.sqrt`/`Real.arcsin` are total.) -/
noncomputable def calculate_distance (lat1 lon1 lat2 lon2 : ℝ) : ℝ :=
  let lat1r := lat1 * Real.pi / 180
  let lon1r := lon1 * Real.pi / 180
  let lat2r := lat2 * Real.pi / 180
  let lon2r := lon2 * Real.pi / 180
  let dlat := lat2r - lat1r
  let dlon := lon2r - lon1r
  let a := Real.sin (dlat / 2) ^ 2
            + Real.cos lat1r * Real.cos lat2r * Real.sin (dlon / 2) ^ 2
  let c := 2 * Real.arcsin (Real.sqrt a)
  c * 6371000

/-- Modelled from the spec (section 4.2): `distanceMeters` is the haversine
great-circle formula with Earth radius 6 371 000 m.  Stated independently of
the source so the source's computation can be compared against it. -/
noncomputable def distanceMeters (lat1 lon1 lat2 lon2 : ℝ) : ℝ :=
  2 * 6371000 * Real.arcsin (Real.sqrt
    (Real.sin ((lat2 - lat1) * Real.pi / 180 / 2) ^ 2
      + Real.cos (lat1 * Real.pi / 180) * Real.cos (lat2 * Real.pi / 180)
          * Real.sin ((lon2 - lon1) * Real.pi / 180 / 2) ^ 2))

/-- Result of one `check_geofence` call: the returned boolean, the distance
value the call computed (`none` when the body returned before binding
`distance`), and the alerts table afterwards. -/
structure GeoCheck where
  within : Bool
  dist? : Option ℝ
  alerts : List Alert

/-- Embedding of `patient_tracker_new.PatientTracker.check_geofence`: `True` immediately
when disabled; otherwise compute the distance and either trigger a
`GEOFENCE_BREACH` alert (returning `False`) or return `True`.  A `KeyError`
on a missing coordinate is caught by the `except`, which returns `True`. -/
noncomputable def check_geofence (cfg : GeofenceConfig) (loc : Loc)
    (alerts : List Alert) : GeoCheck :=
  if cfg.enabled = false then { within := true, dist? := none, alerts := alerts }
  else
    match loc.latitude?, loc.longitude? with
    | some la, some lo =>
      let d := calculate_distance la lo cfg.latitude cfg.longitude
      if d > cfg.radius then
        { within := false, dist? := some d,
          alerts := trigger_alert alerts "GEOFENCE_BREACH" la lo }
      else
        { within := true, dist? := some d, alerts := alerts }
    | _, _ => { within := true, dist? := none, alerts := alerts }

/-- The haversine intermediate `a` of the inline formula in
`patient_tracker.check_geofence` (identical to the one in
`calculate_distance`). -/
noncomputable def hav_a (la lo clat clon : ℝ) : ℝ :=
  Real.sin ((clat * Real.pi / 180 - la * Real.pi / 180) / 2) ^ 2
    + Real.cos (la * Real.pi / 180) * Real.cos (clat * Real.pi / 180)
        * Real.sin ((clon * Real.pi / 180 - lo * Real.pi / 180) / 2) ^ 2

/-- Embedding of `patient_tracker.PatientTracker.check_geofence` (the body of
`patient_tracker_fixed.check_geofence` is identical): the haversine formula
is inlined (`c * 6371 * 1000`).  All exception points — a `KeyError` on a
coordinate lookup, `math.sqrt` of a negative and `math.asin` of an argument
above 1 — are caught by the `except`, which returns `True` without touching
the alerts table. -/
noncomputable def pt_check_geofence (cfg : GeofenceConfig) (loc : Loc)
    (alerts : List Alert) : Bool × List Alert :=
  if cfg.enabled = false then (true, alerts)
  else
    match loc.latitude?, loc.longitude? with
    | some la, some lo =>
      let a := hav_a la lo cfg.latitude cfg.longitude
      if a < 0 then (true, alerts)
      else if 1 < Real.sqrt a then (true, alerts)
      else
        let d := 2 * Real.arcsin (Real.sqrt a) * 6371 * 1000
        if d > cfg.radius then (false, trigger_alert alerts "GEOFENCE_BREACH" la lo)
        else (true, alerts)
    | _, _ => (true, alerts)

/-- Embedding of `web_dashboard.mark_alert_resolved`: `UPDATE alerts SET resolved = 1
WHERE id = ?`. -/
def mark_alert_resolved (alerts : List Alert) (alert_id : ℕ) : List Alert :=
  alerts.map fun a => if a.id = alert_id then { a with resolved := true } else a

/-- The mutable state carried across iterations of
`patient_tracker_new.tracking_loop`: the `consecutive_failures` counter,
`self.current_location`, and the persisted `alerts` and `locations` tables. -/
structure TState where
  consecutiveFailures : ℕ
  currentLocation : Option Loc
  alerts : List Alert
  locations : List Loc

/-- One iteration of `patient_tracker_new.tracking_loop`, as a function of
the result of `get_gps_location` for that poll.  On a fix: reset the failure
counter, update `current_location` (done inside `get_gps_location`), store
the location, and run the geofence check when enabled.  On no fix: increment
the counter and trigger a `GPS_LOST` alert once it reaches 6, using the
last-known coordinates (or the literal 0 when there are none). -/
noncomputable def trackingCycle (cfg : GeofenceConfig) (s : TState)
    (loc? : Option Loc) : TState :=
  match loc? with
  | some loc =>
    let s' : TState :=
      { s with consecutiveFailures := 0, currentLocation := some loc,
               locations := s.locations ++ [loc] }
    if cfg.enabled then
      { s' with alerts := (check_geofence cfg loc s'.alerts).alerts }
    else s'
  | none =>
    let f := s.consecutiveFailures + 1
    if 6 ≤ f then
      { s with consecutiveFailures := f,
               alerts := trigger_alert s.alerts "GPS_LOST"
                 ((s.currentLocation.bind Loc.latitude?).getD 0)
                 ((s.currentLocation.bind Loc.longitude?).getD 0) }
    else { s with consecutiveFailures := f }

/-- Run the tracking loop over a list of per-poll decode results. -/
noncomputable def trackingRun (cfg : GeofenceConfig) (s : TState)
    (polls : List (Option Loc)) : TState :=
  polls.foldl (trackingCycle cfg) s

/-- The default configuration of `patient_tracker_new.__init__`: geofence
enabled, center (40.7128, -74.0060), radius 100 m. -/
def nycCfg : GeofenceConfig :=
  { enabled := true, latitude := 40.7128, longitude := -74.0060, radius := 100 }

/-- A location dictionary at the exact geofence center. -/
def nycLoc : Loc := { latitude? := some 40.7128, longitude? := some (-74.0060) }

/-- Latitude exactly 1000 m (in haversine distance) north of the center:
the offset `(1/6371) * 180 / π` degrees is `1000 / 6371000` radians. -/
noncomputable def far1000lat : ℝ := 40.7128 + (1 / 6371) * 180 / Real.pi

/-- A location dictionary exactly 1000 m from the geofence center. -/
noncomputable def far1000Loc : Loc :=
  { latitude? := some far1000lat, longitude? := some (-74.0060) }

/-- Initial tracking-loop state: zero failures, no fix yet, empty tables. -/
def initState : TState :=
  { consecutiveFailures := 0, currentLocation := none, alerts := [], locations := [] }

/-- Number of persisted `GPS_LOST` alerts. -/
def lostCount (l : List Alert) : ℕ :=
  (l.filter fun a => a.alert_type == "GPS_LOST").length

/-- Number of persisted `GEOFENCE_BREACH` alerts. -/
def breachCount (l : List Alert) : ℕ :=
  (l.filter fun a => a.alert_type == "GEOFENCE_BREACH").length

/-! ## Concrete sentences and their decoded values -/

/-- A syntactically valid GGA sentence (no checksum — accepted, since
`pynmea2.parse` is called with its default `check=False`). -/
def okGGA : String := "$GPGGA,123519,4807.038,N,01131.000,E,1,08,0.9,545.4,M,46.9,M,,"

/-- The fix decoded from `okGGA`: 48°07.038′N = 48.1173°, 11°31.000′E. -/
def okGGAFix : GpsFix :=
  { latitude := 481173 / 10000, longitude := 691 / 60, altitude := some (2727 / 5),
    satellites := some "08", fix_quality := some 1 }

/-- A valid RMC sentence with speed over ground 22.4 knots. -/
def okRMC : String := "$GPRMC,123519,A,4807.038,N,01131.000,E,022.4,084.4,230394,003.1,W"

/-- The data fields of `okRMC` as handed to the RMC dictionary builders. -/
def okRMCData : List (List Char) :=
  splitOnChar ',' "123519,A,4807.038,N,01131.000,E,022.4,084.4,230394,003.1,W".data

/-- Fix decoded from `okRMC` by `patient_tracker_new`: speed 22.4 × 1.852 = 41.4848. -/
def okRMCFixNew : GpsFix :=
  { latitude := 481173 / 10000, longitude := 691 / 60, speed := some (25928 / 625),
    fix_valid := some true }

/-- Fix decoded from `okRMC` by `patient_tracker`: the raw 22.4 knots. -/
def okRMCFixOld : GpsFix :=
  { latitude := 481173 / 10000, longitude := 691 / 60, speed := some (112 / 5),
    fix_valid := some true }

/-- A GGA sentence with latitude field `9900.000` (= 99°, outside [-90, 90]). -/
def bigLatGGA : String := "$GPGGA,t,9900.000,N,00000.000,E,1"

/-- A real no-lock GGA sentence: coordinate fields empty, quality 0. -/
def emptyGGA : String := "$GPGGA,002906.00,,,,,0,00,99.99,,,,,,"

/-- The guard of `tracker.parse_nmea`'s fix-building branch: more than five
comma-separated parts with nonempty latitude and longitude fields. -/
def gga_coords_present (l : List Char) : Prop :=
  5 < (splitOnChar ',' l).length
    ∧ fieldAt (splitOnChar ',' l) 2 ≠ [] ∧ fieldAt (splitOnChar ',' l) 4 ≠ []

instance : DecidablePred gga_coords_present := fun l => by
  unfold gga_coords_present
  infer_instance

/-- The default geofence configuration with the enabled flag off. -/
def disabledCfg : GeofenceConfig :=
  { enabled := false, latitude := 40.7128, longitude := -74.0060, radius := 100 }

/-! ## Helper lemmas: haversine values and geofence evaluations -/

/-- The haversine distance from a point to the point `θ * 180 / π` degrees
north of it is exactly `6371000 * θ` for `θ ∈ [0, π]`. -/
theorem dist_lat_offset (c lon θ : ℝ) (h0 : 0 ≤ θ) (h1 : θ ≤ Real.pi) :
    calculate_distance (c + θ * 180 / Real.pi) lon c lon = 6371000 * θ := by
  have hpi : Real.pi ≠ 0 := Real.pi_ne_zero
  have hd : c * Real.pi / 180 - (c + θ * 180 / Real.pi) * Real.pi / 180 = -θ := by
    field_simp
  have hlon : lon * Real.pi / 180 - lon * Real.pi / 180 = 0 := sub_self _
  have hθ2 : Real.sin (θ / 2) ≥ 0 := by
    apply Real.sin_nonneg_of_nonneg_of_le_pi
    · linarith
    · linarith [Real.pi_pos]
  simp only [calculate_distance, hd, hlon]
  rw [zero_div, Real.sin_zero]
  have e1 : (-θ) / 2 = -(θ / 2) := by ring
  rw [e1, Real.sin_neg, neg_sq]
  rw [zero_pow (by norm_num : (2:ℕ) ≠ 0), mul_zero, add_zero]
  rw [Real.sqrt_sq_eq_abs, abs_of_nonneg hθ2]
  rw [Real.arcsin_sin (by linarith [Real.pi_pos]) (by linarith)]
  ring

/-- Distance from the configured center to itself is 0. -/
theorem dist_center :
    calculate_distance 40.7128 (-74.0060) 40.7128 (-74.0060) = 0 := by
  have h := dist_lat_offset 40.7128 (-74.0060) 0 le_rfl Real.pi_pos.le
  simpa using h

/-- Distance from `far1000lat` to the configured center is exactly 1000 m. -/
theorem dist_far :
    calculate_distance far1000lat (-74.0060) 40.7128 (-74.0060) = 1000 := by
  have h3 : (1 / 6371 : ℝ) ≤ Real.pi := by
    have := Real.pi_gt_three
    linarith
  have h := dist_lat_offset 40.7128 (-74.0060) (1 / 6371) (by norm_num) h3
  rw [far1000lat]
  rw [h]
  norm_num

/-- A `check_geofence` call at the center: within the fence, distance 0,
alerts untouched. -/
theorem check_center (A : List Alert) :
    check_geofence nycCfg nycLoc A = { within := true, dist? := some 0, alerts := A } := by
  simp only [check_geofence, nycCfg, nycLoc, dist_center]
  norm_num

/-- A `check_geofence` call 1000 m out: breach, one new alert row. -/
theorem check_far (A : List Alert) :
    check_geofence nycCfg far1000Loc A =
      { within := false, dist? := some 1000,
        alerts := A ++ [{ alert_type := "GEOFENCE_BREACH", latitude := far1000lat,
                          longitude := -74.0060, resolved := false, id := A.length + 1 }] } := by
  simp only [check_geofence, nycCfg, far1000Loc, dist_far, trigger_alert]
  norm_num

/-- One tracking cycle on a fix at the center: tables unchanged except the
stored location. -/
theorem cycle_center (s : TState) :
    trackingCycle nycCfg s (some nycLoc) =
      { consecutiveFailures := 0, currentLocation := some nycLoc,
        alerts := s.alerts, locations := s.locations ++ [nycLoc] } := by
  simp [trackingCycle, check_center, show nycCfg.enabled = true from rfl]

/-- One tracking cycle on a fix 1000 m out: a breach alert is appended. -/
theorem cycle_far (s : TState) :
    trackingCycle nycCfg s (some far1000Loc) =
      { consecutiveFailures := 0, currentLocation := some far1000Loc,
        alerts := s.alerts ++ [{ alert_type := "GEOFENCE_BREACH", latitude := far1000lat,
                                 longitude := -74.0060, resolved := false,
                                 id := s.alerts.length + 1 }],
        locations := s.locations ++ [far1000Loc] } := by
  simp [trackingCycle, check_far, show nycCfg.enabled = true from rfl]

/-! ## Helper lemmas: skipped lines -/

theorem dropWhile_append_singleton {α : Type} (p : α → Bool) (c : α)
    (hc : p c = false) (l : List α) :
    (l ++ [c]).dropWhile p = l.dropWhile p ++ [c] := by
  induction l with
  | nil => simp [List.dropWhile, hc]
  | cons a t ih =>
    by_cases h : p a
    · simpa [List.dropWhile_cons, h] using ih
    · simp [List.dropWhile_cons, h]

theorem pyRstrip_cons (c : Char) (t : List Char) (hc : pySpace c = false) :
    pyRstrip (c :: t) = c :: pyRstrip t := by
  simp [pyRstrip, dropWhile_append_singleton pySpace c hc]

theorem pyStrip_cons (c : Char) (t : List Char) (hc : pySpace c = false) :
    pyStrip (c :: t) = c :: pyRstrip t := by
  simp [pyStrip, List.dropWhile_cons, hc, pyRstrip_cons c t hc]

/-- A line whose stripped form does not start with `$` is skipped by the
inner loop of `patient_tracker_new.parse_gps_data`. -/
theorem gps_line_new_skip (l : List Char) (h : ¬ (pyStrip l).head? = some '$') :
    gps_line_new l = none := by
  unfold gps_line_new
  split
  · rename_i heq
    exact absurd (by rw [heq]; rfl) h
  · rename_i heq
    exact absurd (by rw [heq]; rfl) h
  · rfl

/-- A line whose stripped form does not start with `$` is skipped by the
inner loop of `patient_tracker.parse_gps_data`. -/
theorem gps_line_old_skip (l : List Char) (h : ¬ (pyStrip l).head? = some '$') :
    gps_line_old l = none := by
  unfold gps_line_old
  split
  · rw [pyStrip_cons '$' _ rfl] at h
    exact absurd rfl h
  · rw [pyStrip_cons '$' _ rfl] at h
    exact absurd rfl h
  · rfl

/-- A line whose stripped form does not start with `$` is skipped by
`tracker.parse_nmea`. -/
theorem nmea_line_skip (l : List Char) (h : ¬ (pyStrip l).head? = some '$') :
    nmea_line l = none := by
  unfold nmea_line
  split
  · rw [pyStrip_cons '$' _ rfl] at h
    exact absurd rfl h
  · rfl

theorem gps_lines_new_none (ls : List (List Char))
    (h : ∀ l ∈ ls, ¬ (pyStrip l).head? = some '$') :
    gps_lines_new ls = none := by
  induction ls with
  | nil => rfl
  | cons a t ih =>
    rw [gps_lines_new, gps_line_new_skip a (h a (by simp))]
    exact ih fun l hl => h l (by simp [hl])

theorem gps_lines_old_none (ls : List (List Char))
    (h : ∀ l ∈ ls, ¬ (pyStrip l).head? = some '$') :
    gps_lines_old ls = none := by
  induction ls with
  | nil => rfl
  | cons a t ih =>
    rw [gps_lines_old, gps_line_old_skip a (h a (by simp))]
    exact ih fun l hl => h l (by simp [hl])

theorem nmea_lines_none (ls : List (List Char))
    (h : ∀ l ∈ ls, ¬ (pyStrip l).head? = some '$') :
    nmea_lines ls = none := by
  induction ls with
  | nil => rfl
  | cons a t ih =>
    rw [nmea_lines, nmea_line_skip a (h a (by simp))]
    exact ih fun l hl => h l (by simp [hl])

/-! ## Claim theorems -/

/-- C1, counterexample: starting from a fresh state, two consecutive polls
whose fix is 1000 m outside the geofence persist two `GEOFENCE_BREACH`
alerts — not the single alert the claim's edge-triggering would produce. -/
theorem c1_counterexample :
    breachCount (trackingRun nycCfg initState [some far1000Loc, some far1000Loc]).alerts = 2
    ∧ ¬ breachCount (trackingRun nycCfg initState
          [some far1000Loc, some far1000Loc]).alerts = 1 := by
  have hrun : trackingRun nycCfg initState [some far1000Loc, some far1000Loc]
      = trackingCycle nycCfg (trackingCycle nycCfg initState (some far1000Loc))
          (some far1000Loc) := rfl
  rw [hrun, cycle_far, cycle_far]
  simp [breachCount, initState, List.filter]

/-- C1, amended: alerting is level-triggered — every poll whose fix lies
outside the geofence persists a fresh `GEOFENCE_BREACH` alert, so two
consecutive breach polls with no intervening clear persist exactly two
alerts (one per poll), whatever the starting state. -/
theorem c1_level_triggered (s : TState) :
    (trackingRun nycCfg s [some far1000Loc, some far1000Loc]).alerts.length
        = s.alerts.length + 2
    ∧ breachCount (trackingRun nycCfg s [some far1000Loc, some far1000Loc]).alerts
        = breachCount s.alerts + 2 := by
  have hrun : trackingRun nycCfg s [some far1000Loc, some far1000Loc]
      = trackingCycle nycCfg (trackingCycle nycCfg s (some far1000Loc))
          (some far1000Loc) := rfl
  rw [hrun, cycle_far, cycle_far]
  simp [breachCount, List.filter_append, List.filter]

/-- C2: with the failure counter at zero, five consecutive no-fix polls
persist no alert; six persist exactly one new alert, and it is the lost-GPS
alert (`GPS_LOST`, the code's name for the spec's POSITION_LOST); and any
poll that yields a fix resets the consecutive-failure counter to 0. -/
theorem c2_position_lost (cfg : GeofenceConfig) (s : TState)
    (h : s.consecutiveFailures = 0) :
    (trackingRun cfg s (List.replicate 5 none)).alerts = s.alerts
    ∧ (trackingRun cfg s (List.replicate 6 none)).alerts.length = s.alerts.length + 1
    ∧ lostCount (trackingRun cfg s (List.replicate 6 none)).alerts
        = lostCount s.alerts + 1
    ∧ ∀ (s' : TState) (loc : Loc),
        (trackingCycle cfg s' (some loc)).consecutiveFailures = 0 := by
  refine ⟨?_, ?_, ?_, ?_⟩
  · simp [trackingRun, trackingCycle, h, List.replicate]
  · simp [trackingRun, trackingCycle, h, List.replicate, trigger_alert]
  · simp [trackingRun, trackingCycle, h, List.replicate, trigger_alert,
      lostCount, List.filter_append, List.filter]
  · intro s' loc
    simp only [trackingCycle]
    split <;> rfl

/-- C2, witness at the initial state and default configuration. -/
theorem c2_position_lost_witness :
    (trackingRun nycCfg initState (List.replicate 5 none)).alerts = []
    ∧ lostCount (trackingRun nycCfg initState (List.replicate 6 none)).alerts = 1 := by
  have h := c2_position_lost nycCfg initState rfl
  exact ⟨h.1, by simpa using h.2.2.1⟩

/-- C3, counterexample: a breach poll followed by a poll back inside the
fence leaves the persisted `GEOFENCE_BREACH` alert unresolved — nothing
marks the most recent open alert of that kind resolved when the condition
clears. -/
theorem c3_counterexample :
    ((trackingRun nycCfg initState [some far1000Loc, some nycLoc]).alerts.map
        fun a => (a.alert_type, a.resolved)) = [("GEOFENCE_BREACH", false)]
    ∧ ¬ ∀ a ∈ (trackingRun nycCfg initState [some far1000Loc, some nycLoc]).alerts,
          a.alert_type = "GEOFENCE_BREACH" → a.resolved = true := by
  have hrun : trackingRun nycCfg initState [some far1000Loc, some nycLoc]
      = trackingCycle nycCfg (trackingCycle nycCfg initState (some far1000Loc))
          (some nycLoc) := rfl
  rw [hrun, cycle_far, cycle_center]
  refine ⟨by simp [initState], ?_⟩
  intro hall
  have := hall { alert_type := "GEOFENCE_BREACH", latitude := far1000lat,
                 longitude := -74.0060, resolved := false,
                 id := initState.alerts.length + 1 } (by simp) rfl
  simp at this

/-- C3, amended: the tracking loop never resolves an alert when the breach
condition clears (an in-fence poll leaves the alerts table unchanged).
Alerts are resolved only externally, by the dashboard's
`mark_alert_resolved`, which sets `resolved` on exactly the row with the
given id — regardless of alert kind, recency, or any active condition —
and changes nothing else. -/
theorem c3_external_resolution_only :
    (∀ s : TState, (trackingCycle nycCfg s (some nycLoc)).alerts = s.alerts)
    ∧ ∀ (l : List Alert) (i : ℕ),
        (mark_alert_resolved l i).map Alert.id = l.map Alert.id
        ∧ (mark_alert_resolved l i).map Alert.alert_type = l.map Alert.alert_type
        ∧ (mark_alert_resolved l i).map Alert.resolved
            = l.map fun a => if a.id = i then true else a.resolved := by
  refine ⟨fun s => by rw [cycle_center], ?_⟩
  intro l i
  refine ⟨?_, ?_, ?_⟩ <;>
    · induction l with
      | nil => rfl
      | cons a t ih =>
        simp only [mark_alert_resolved, List.map_cons] at ih ⊢
        rw [ih]
        by_cases h : a.id = i <;> simp [h]
/-- C4, counterexample: with the geofence disabled, `check_geofence` at the
center returns within = true but computes and returns no distance at all
(the claim asserts the distance is still computed and returned). -/
theorem c4_counterexample :
    (check_geofence disabledCfg nycLoc []).within = true
    ∧ (check_geofence disabledCfg nycLoc []).dist? = none
    ∧ ¬ (check_geofence disabledCfg nycLoc []).dist?
          = some (calculate_distance 40.7128 (-74.0060) 40.7128 (-74.0060)) := by
  refine ⟨rfl, rfl, ?_⟩
  intro hsome
  simp [check_geofence, disabledCfg] at hsome

/-- C4, amended: when the enabled flag is false, `check_geofence` returns
within = true immediately, without computing or returning any distance and
without touching the alerts table. -/
theorem c4_disabled_no_distance (clat clon r : ℝ) (loc : Loc) (alerts : List Alert) :
    check_geofence { enabled := false, latitude := clat, longitude := clon, radius := r }
        loc alerts
      = { within := true, dist? := none, alerts := alerts } := rfl

/-- C5: the source's `calculate_distance` is exactly the spec's haversine
`distanceMeters` with Earth radius 6 371 000 m; with the geofence enabled,
within = true holds iff the distance does not exceed the configured radius;
at the default configuration a fix at the exact center is inside the fence
and a fix exactly 1000 m away is outside it. -/
theorem c5_haversine_geofence :
    (∀ la1 lo1 la2 lo2 : ℝ,
        calculate_distance la1 lo1 la2 lo2 = distanceMeters la1 lo1 la2 lo2)
    ∧ (∀ (clat clon rad la lo : ℝ) (A : List Alert),
        (check_geofence { enabled := true, latitude := clat, longitude := clon, radius := rad }
            { latitude? := some la, longitude? := some lo } A).within = true
          ↔ calculate_distance la lo clat clon ≤ rad)
    ∧ (check_geofence nycCfg nycLoc []).within = true
    ∧ (check_geofence nycCfg far1000Loc []).within = false := by
  refine ⟨?_, ?_, ?_, ?_⟩
  · intro la1 lo1 la2 lo2
    simp only [calculate_distance, distanceMeters]
    rw [show la2 * Real.pi / 180 - la1 * Real.pi / 180 = (la2 - la1) * Real.pi / 180 by ring,
        show lo2 * Real.pi / 180 - lo1 * Real.pi / 180 = (lo2 - lo1) * Real.pi / 180 by ring]
    ring
  · intro clat clon rad la lo A
    simp only [check_geofence]
    norm_num
    split_ifs with hgt
    · simpa using not_le.mpr hgt
    · simpa using not_lt.mp hgt
  · rw [check_center]
  · rw [check_far]
/-- C6, counterexample: in `patient_tracker.parse_gps_data` a corrupt
recognized sentence (a truncated `$GPGGA`, on which `pynmea2.parse` raises
`ParseError`) makes the whole batch decode return no fix, even though the
valid sentence after it decodes on its own. -/
theorem c6_counterexample :
    parse_gps_data_old ("$GPGGA\n" ++ okGGA) = none
    ∧ parse_gps_data_old okGGA = some okGGAFix
    ∧ ¬ parse_gps_data_old ("$GPGGA\n" ++ okGGA) = some okGGAFix := by
  refine ⟨by decide, by decide, by decide⟩

/-- C6, amended: a recognized sentence on which `pynmea2.parse` raises
`ParseError` (here a truncated `$GPGGA`) is skipped by
`patient_tracker_new.parse_gps_data`, which goes on to decode the rest of
the batch; in `patient_tracker.parse_gps_data` the same corrupt sentence
makes the whole batch decode return no fix. -/
theorem c6_skip_vs_abort (rest : List (List Char)) (f : GpsFix)
    (h : gps_lines_new rest = some f) :
    gps_lines_new ("$GPGGA".data :: rest) = some f
    ∧ gps_lines_old ("$GPGGA".data :: rest) = none := by
  constructor
  · exact h
  · rfl

/-- C6, witness: the corrupt sentence followed by `okGGA`. -/
theorem c6_skip_vs_abort_witness :
    gps_lines_new ("$GPGGA".data :: [okGGA.data]) = some okGGAFix
    ∧ gps_lines_old ("$GPGGA".data :: [okGGA.data]) = none :=
  c6_skip_vs_abort [okGGA.data] okGGAFix (by decide)

/-- C7, counterexample: an RMC sentence with speed 22.4 knots decodes (in
`patient_tracker_new`) to speed 22.4 × 1.852 = 41.4848 (km/h), which is not
the meters-per-second value 22.4 × 1852/3600 the claim requires. -/
theorem c7_counterexample :
    (parse_gps_data_new okRMC).map GpsFix.speed = some (some (25928 / 625))
    ∧ ¬ (25928 / 625 : ℚ) = 112 / 5 * (1852 / 3600) := by
  refine ⟨by decide, by decide⟩

/-- C7, amended: for the same RMC data, `patient_tracker_new` stores 1.852
times the raw knots value stored by `patient_tracker` (knots → km/h, with 0
for an empty or zero field); neither decoder produces meters per second. -/
theorem c7_knots_to_kmh (data : List (List Char)) (f g : GpsFix)
    (hn : rmc_fix_new data = .ok f) (ho : rmc_fix_old data = .ok g) :
    f.speed = some (1.852 * g.speed.getD 0) := by
  cases hc : rmc_common data with
  | error e => simp [rmc_fix_new, hc, bind, Except.bind] at hn
  | ok v =>
    obtain ⟨lat, lon, spd, valid⟩ := v
    simp only [rmc_fix_new, hc, bind, Except.bind, Except.ok.injEq] at hn
    simp only [rmc_fix_old, hc, bind, Except.bind, Except.ok.injEq] at ho
    rw [← hn, ← ho]
    cases spd with
    | none => norm_num
    | some s =>
      by_cases hs : s = 0
      · simp [hs]
      · simp only [hs, if_true, ne_eq, not_false_iff, Option.getD_some, if_neg]
        simp [hs]
        ring

/-- C7, witness: the two decodes of `okRMC`'s data fields. -/
theorem c7_knots_to_kmh_witness :
    okRMCFixNew.speed = some (1.852 * okRMCFixOld.speed.getD 0) :=
  c7_knots_to_kmh okRMCData okRMCFixNew okRMCFixOld (by rfl) (by rfl)

/-- Helper: `tracker.parse_nmea` only returns (fix or abort) from a line that passes
the field-presence guard. -/
theorem nmea_line_some (l : List Char) (res : Option TFix)
    (h : nmea_line l = some res) : gga_coords_present l := by
  unfold nmea_line at h
  split at h
  · rename_i tail
    dsimp only at h
    by_cases hg : gga_coords_present ('$' :: 'G' :: 'P' :: 'G' :: 'G' :: 'A' :: tail)
    · exact hg
    · simp only [gga_coords_present] at hg
      rw [if_neg hg] at h
      exact absurd h (by simp)
  · exact absurd h (by simp)

/-- C8, counterexample: a GGA sentence with latitude field `9900.000`
decodes to latitude 99°, outside [-90, 90]; and `patient_tracker_new`
decodes a GGA sentence with empty coordinate fields to a (0, 0) fix instead
of failing. -/
theorem c8_counterexample :
    parse_nmea bigLatGGA = some ⟨99, 0⟩
    ∧ ¬ (99 : ℚ) ≤ 90
    ∧ ¬ parse_gps_data_new emptyGGA = none := by
  refine ⟨by decide, by decide, by decide⟩

/-- C8, amended: no decoder range-validates coordinates — a latitude of 99°
decodes successfully — and `patient_tracker_new` decodes an
empty-coordinate GGA sentence to a (0, 0) fix; only `tracker.parse_nmea`
refuses to construct a fix when a coordinate field is empty (every fix it
returns comes from a line with more than five fields and nonempty latitude
and longitude fields). -/
theorem c8_no_range_validation :
    parse_nmea bigLatGGA = some ⟨99, 0⟩
    ∧ parse_gps_data_new emptyGGA
        = some { latitude := 0, longitude := 0, satellites := some "00",
                 fix_quality := some 0 }
    ∧ ∀ (ls : List (List Char)) (f : TFix), nmea_lines ls = some f →
        ∃ l ∈ ls, gga_coords_present l := by
  refine ⟨by decide, by decide, ?_⟩
  intro ls
  induction ls with
  | nil => intro f h; simp [nmea_lines] at h
  | cons a t ih =>
    intro f h
    rw [nmea_lines] at h
    cases hline : nmea_line a with
    | none =>
      rw [hline] at h
      obtain ⟨l, hl, hp⟩ := ih f h
      exact ⟨l, by simp [hl], hp⟩
    | some res =>
      exact ⟨a, by simp, nmea_line_some a res hline⟩

/-- C8, witness for the universal part: the 99° sentence itself. -/
theorem c8_no_range_validation_witness :
    ∃ l ∈ [bigLatGGA.data], gga_coords_present l :=
  c8_no_range_validation.2.2 [bigLatGGA.data] ⟨99, 0⟩ (by decide)

/-- C9: decoding is total — on any input in which no (stripped) line starts
with `$`, and on the empty input, all three decoders return the no-fix
value rather than an error (the embedding is a total function, mirroring
the source's catch-all handlers). -/
theorem c9_no_dollar_no_fix :
    (∀ raw : String,
      (∀ l ∈ splitOnChar '\n' raw.data, ¬ (pyStrip l).head? = some '$') →
      parse_gps_data_new raw = none ∧ parse_gps_data_old raw = none
        ∧ parse_nmea raw = none)
    ∧ parse_gps_data_new "" = none ∧ parse_gps_data_old "" = none
    ∧ parse_nmea "" = none := by
  refine ⟨?_, by decide, by decide, by decide⟩
  intro raw h
  exact ⟨gps_lines_new_none _ h, gps_lines_old_none _ h, nmea_lines_none _ h⟩

/-- C9, witness: an input with no `$` anywhere. -/
theorem c9_no_dollar_no_fix_witness :
    parse_gps_data_new "hello\nworld" = none
    ∧ parse_gps_data_old "hello\nworld" = none
    ∧ parse_nmea "hello\nworld" = none :=
  c9_no_dollar_no_fix.1 "hello\nworld" (by decide)

/-- C10: with the geofence enabled, every modelled exception inside
`patient_tracker.check_geofence` — a missing coordinate key, `math.sqrt` of
a negative intermediate, or `math.asin` of an argument above 1 — is caught
and makes the call return True with the alerts table unchanged: the check
fails open and creates no breach alert. -/
theorem c10_fail_open (cfg : GeofenceConfig) (loc : Loc) (A : List Alert)
    (he : cfg.enabled = true) :
    ((loc.latitude? = none ∨ loc.longitude? = none) →
        pt_check_geofence cfg loc A = (true, A))
    ∧ ∀ la lo, loc.latitude? = some la → loc.longitude? = some lo →
        (hav_a la lo cfg.latitude cfg.longitude < 0
          ∨ 1 < Real.sqrt (hav_a la lo cfg.latitude cfg.longitude)) →
        pt_check_geofence cfg loc A = (true, A) := by
  constructor
  · intro hmiss
    rcases hmiss with hla | hlo
    · simp [pt_check_geofence, he, hla]
    · rcases h2 : loc.latitude? with _ | la <;> simp [pt_check_geofence, he, h2, hlo]
  · intro la lo hla hlo hexc
    have hm : pt_check_geofence cfg loc A
        = (if hav_a la lo cfg.latitude cfg.longitude < 0 then ((true : Bool), A)
           else if 1 < Real.sqrt (hav_a la lo cfg.latitude cfg.longitude) then (true, A)
           else if 2 * Real.arcsin (Real.sqrt (hav_a la lo cfg.latitude cfg.longitude))
                      * 6371 * 1000 > cfg.radius
                then (false, trigger_alert A "GEOFENCE_BREACH" la lo)
                else (true, A)) := by
      unfold pt_check_geofence
      rw [he, hla, hlo]
      exact rfl
    rw [hm]
    rcases hexc with hneg | hbig
    · rw [if_pos hneg]
    · by_cases hneg : hav_a la lo cfg.latitude cfg.longitude < 0
      · rw [if_pos hneg]
      · rw [if_neg hneg, if_pos hbig]

/-- C10, witness: a location dictionary with no latitude key. -/
theorem c10_fail_open_witness :
    pt_check_geofence nycCfg { latitude? := none, longitude? := some (-74.0060) } []
      = (true, []) :=
  (c10_fail_open nycCfg { latitude? := none, longitude? := some (-74.0060) } [] rfl).1
    (Or.inl rfl)
